import Mathlib

/-!
Verification of the teacher RBAC policy engine.

The repository contains two implementations of the same role-based
access-control decision procedure:

* `src/teacher-rbac-system.ts`, class `RoleBasedAccessControl`
  (embedded here with the `rbc` prefix), and
* `src/src/services/RBACService.ts`, class `RBACService`
  (embedded here with the `svc` prefix).

Both are pure decision functions of (user, permission, optional resource).
The teaching-relationship lookups `isTeachingStudent` / `isTeachingClass`
are hard-coded `return true` stubs in both files; the embeddings below are
parameterised over the two lookups (`...With` versions), and the shipped
behaviour is the instantiation at the constant-true stub (`stubTrue`),
which is definitionally the source code.

JavaScript truthiness matters in the source: guards of the form
`resource?.classId && ...` treat an absent resource, an absent field and
the empty string alike as false. The helpers `truthy` / `truthyAnd`
capture exactly this for optional string fields.
-/

namespace TeacherRBAC

/-- Enum `TeacherRole` from `teacher-rbac-system.ts` (identical in
`src/src/types/index.ts`). -/
inductive TeacherRole where
  | HOMEROOM_TEACHER
  | GENERAL_TEACHER
  deriving DecidableEq, Repr

/-- The string value of each `TeacherRole` enum member. -/
def TeacherRole.value : TeacherRole → String
  | .HOMEROOM_TEACHER => "homeroom_teacher"
  | .GENERAL_TEACHER => "general_teacher"

/-- Enum `Permission` (fourteen members, identical in both files). -/
inductive Permission where
  | VIEW_STUDENTS
  | MANAGE_STUDENTS
  | EDIT_STUDENT_INFO
  | VIEW_GRADES
  | MANAGE_GRADES
  | EXPORT_GRADES
  | VIEW_ATTENDANCE
  | MANAGE_ATTENDANCE
  | VIEW_PARENT_INFO
  | CONTACT_PARENTS
  | MANAGE_CLASS
  | VIEW_CLASS_REPORTS
  | CONDUCT_COUNSELING
  | VIEW_COUNSELING_RECORDS
  deriving DecidableEq, Repr

/-- Interface `User`. Optional fields are `Option`; `profileImage` exists
only in the `src/src/types` variant and is never read by the policy code;
`createdAt : Date` is abstracted to a number (it is never read either). -/
structure User where
  id : String
  name : String
  email : String
  role : TeacherRole
  classId : Option String
  subjectIds : Option (List String)
  profileImage : Option String
  createdAt : Nat
  isActive : Bool
  deriving DecidableEq, Repr

/-- Interface `AuthorizationResult`: `allowed: boolean; reason?: string`. -/
structure AuthorizationResult where
  allowed : Bool
  reason : Option String
  deriving DecidableEq, Repr

/-- The `resource?: any` argument. The policy code reads exactly three
fields off it: `classId`, `subjectId`, `studentId`. -/
structure Resource where
  classId : Option String
  subjectId : Option String
  studentId : Option String
  deriving DecidableEq, Repr

/-- `resource?.classId`: optional chaining through an optional resource. -/
def rClassId : Option Resource → Option String
  | none => none
  | some r => r.classId

/-- `resource?.subjectId`. -/
def rSubjectId : Option Resource → Option String
  | none => none
  | some r => r.subjectId

/-- `resource?.studentId`. -/
def rStudentId : Option Resource → Option String
  | none => none
  | some r => r.studentId

/-- JavaScript truthiness of an optional string: `undefined` and `""` are
falsy, every other string is truthy. -/
def truthy : Option String → Bool
  | none => false
  | some s => !(s == "")

/-- A guard of the form `field && check(field)` on an optional string
field, with JavaScript truthiness for the left conjunct. -/
def truthyAnd (field : Option String) (check : String → Bool) : Bool :=
  match field with
  | none => false
  | some s => !(s == "") && check s

/-- `user.subjectIds?.includes(s)`: an absent array makes the whole
optional chain `undefined`, hence falsy. -/
def optIncludes : Option (List String) → String → Bool
  | none, _ => false
  | some l, s => l.contains s

/-- Denial reason `'비활성화된 사용자입니다.'` (inactive user). -/
def reasonInactive : String := "비활성화된 사용자입니다."

/-- Denial reason `'해당 역할에 권한이 없습니다.'` (permission not granted
to role). -/
def reasonNoRolePermission : String := "해당 역할에 권한이 없습니다."

/-- Denial reason `'담당 과목의 성적만 관리할 수 있습니다.'` (not own
subject). -/
def reasonNotOwnSubject : String := "담당 과목의 성적만 관리할 수 있습니다."

/-- Denial reason `'담당 학생만 상담할 수 있습니다.'` (not own student). -/
def reasonNotOwnStudent : String := "담당 학생만 상담할 수 있습니다."

/-- Denial reason `'담당 반의 학생만 조회할 수 있습니다.'` (not own class,
view branch of the standalone script). -/
def reasonNotOwnClassView : String := "담당 반의 학생만 조회할 수 있습니다."

/-- Denial reason `'담임 반만 관리할 수 있습니다.'` (not own homeroom
class). -/
def reasonNotOwnHomeroom : String := "담임 반만 관리할 수 있습니다."

/-- Denial reason `'사용자를 찾을 수 없습니다.'` (user not found,
`TeacherService.checkPermission`). -/
def reasonUserNotFound : String := "사용자를 찾을 수 없습니다."

/-- The fourteen permissions every `HOMEROOM_TEACHER` holds, in source
order (identical list in both files). -/
def homeroomPermissionList : List Permission :=
  [ .VIEW_STUDENTS, .MANAGE_STUDENTS, .EDIT_STUDENT_INFO,
    .VIEW_GRADES, .MANAGE_GRADES, .EXPORT_GRADES,
    .VIEW_ATTENDANCE, .MANAGE_ATTENDANCE,
    .VIEW_PARENT_INFO, .CONTACT_PARENTS,
    .MANAGE_CLASS, .VIEW_CLASS_REPORTS,
    .CONDUCT_COUNSELING, .VIEW_COUNSELING_RECORDS ]

/-- The five permissions of a `GENERAL_TEACHER`, in source order
(identical list in both files). -/
def generalPermissionList : List Permission :=
  [ .VIEW_STUDENTS, .VIEW_GRADES, .MANAGE_GRADES,
    .VIEW_ATTENDANCE, .CONDUCT_COUNSELING ]

/-- `RoleBasedAccessControl.rolePermissions`: a record keyed by the enum
string values (`initializeRolePermissions`). -/
def rbcRolePermissionsTable : List (String × List Permission) :=
  [ ("homeroom_teacher", homeroomPermissionList),
    ("general_teacher", generalPermissionList) ]

/-- `RoleBasedAccessControl.getRolePermissions`:
`this.rolePermissions[role] || []`. -/
def rbcGetRolePermissions (role : TeacherRole) : List Permission :=
  (((rbcRolePermissionsTable.find? (fun e => e.1 == role.value)).map
      (fun e => e.2)).getD [])

/-- String-keyed variant of the same lookup, exposing what
`this.rolePermissions[role] || []` does on a key outside the closed
enum (a raw string can reach it at runtime since enums erase to
strings): it yields `[]`, it does not throw. -/
def rbcGetRolePermissionsStr (role : String) : List Permission :=
  (((rbcRolePermissionsTable.find? (fun e => e.1 == role)).map
      (fun e => e.2)).getD [])

/-- `RBACService.rolePermissions` (same contents, re-declared in the
service file). -/
def svcRolePermissionsTable : List (String × List Permission) :=
  [ ("homeroom_teacher", homeroomPermissionList),
    ("general_teacher", generalPermissionList) ]

/-- `RBACService.getRolePermissions`: `this.rolePermissions[role] || []`. -/
def svcGetRolePermissions (role : TeacherRole) : List Permission :=
  (((svcRolePermissionsTable.find? (fun e => e.1 == role.value)).map
      (fun e => e.2)).getD [])

/-- The shipped teaching-relationship lookup: both `isTeachingStudent`
and `isTeachingClass` are `return true` stubs in both files. -/
def stubTrue : User → String → Bool := fun _ _ => true

/-- `RoleBasedAccessControl.checkResourceAccess`, parameterised over the
two teaching-relationship lookups (`teachesStudent` for
`isTeachingStudent`, `teachesClass` for `isTeachingClass`). The source
body is two sequential `if (user.role === ...)` blocks whose `switch`es
fall through to a final `return { allowed: true }`; since `TeacherRole`
has exactly two members the sequential blocks are rendered as nested
branches. -/
def rbcCheckResourceAccessWith (teachesStudent teachesClass : User → String → Bool)
    (user : User) (permission : Permission) (resource : Option Resource) :
    AuthorizationResult :=
  if user.role == TeacherRole.GENERAL_TEACHER then
    match permission with
    | .MANAGE_GRADES =>
        -- if (resource?.subjectId && user.subjectIds?.includes(resource.subjectId))
        if truthyAnd (rSubjectId resource) (fun s => optIncludes user.subjectIds s) then
          ⟨true, none⟩
        else ⟨false, some reasonNotOwnSubject⟩
    | .CONDUCT_COUNSELING =>
        -- if (resource?.studentId && this.isTeachingStudent(user, resource.studentId))
        if truthyAnd (rStudentId resource) (fun sid => teachesStudent user sid) then
          ⟨true, none⟩
        else ⟨false, some reasonNotOwnStudent⟩
    | .VIEW_STUDENTS | .VIEW_GRADES | .VIEW_ATTENDANCE =>
        -- if (resource?.classId && this.isTeachingClass(user, resource.classId))
        if truthyAnd (rClassId resource) (fun c => teachesClass user c) then
          ⟨true, none⟩
        else ⟨false, some reasonNotOwnClassView⟩
    | _ => ⟨true, none⟩
  else
    -- user.role === TeacherRole.HOMEROOM_TEACHER
    match permission with
    | .MANAGE_CLASS | .MANAGE_STUDENTS | .EDIT_STUDENT_INFO =>
        -- if (resource?.classId && user.classId === resource.classId)
        if truthyAnd (rClassId resource) (fun c => user.classId == some c) then
          ⟨true, none⟩
        else ⟨false, some reasonNotOwnHomeroom⟩
    | _ => ⟨true, none⟩

/-- `RoleBasedAccessControl.checkResourceAccess` as shipped (stub
lookups). -/
def rbcCheckResourceAccess : User → Permission → Option Resource → AuthorizationResult :=
  rbcCheckResourceAccessWith stubTrue stubTrue

/-- `RoleBasedAccessControl.checkPermission`, parameterised over the
teaching-relationship lookups. -/
def rbcCheckPermissionWith (teachesStudent teachesClass : User → String → Bool)
    (user : User) (permission : Permission) (resource : Option Resource) :
    AuthorizationResult :=
  if !user.isActive then ⟨false, some reasonInactive⟩
  else if !((rbcGetRolePermissions user.role).contains permission) then
    ⟨false, some reasonNoRolePermission⟩
  else rbcCheckResourceAccessWith teachesStudent teachesClass user permission resource

/-- `RoleBasedAccessControl.checkPermission` as shipped (stub lookups). -/
def rbcCheckPermission : User → Permission → Option Resource → AuthorizationResult :=
  rbcCheckPermissionWith stubTrue stubTrue

/-- `RBACService.checkResourceAccess`, parameterised over the lookups.
It differs from the standalone script in two branches: the view branch
of a general teacher ends in `return { allowed: true }` instead of a
denial, and the homeroom branch has an extra
`if (!resource?.classId) return { allowed: true }`. -/
def svcCheckResourceAccessWith (teachesStudent teachesClass : User → String → Bool)
    (user : User) (permission : Permission) (resource : Option Resource) :
    AuthorizationResult :=
  if user.role == TeacherRole.GENERAL_TEACHER then
    match permission with
    | .MANAGE_GRADES =>
        if truthyAnd (rSubjectId resource) (fun s => optIncludes user.subjectIds s) then
          ⟨true, none⟩
        else ⟨false, some reasonNotOwnSubject⟩
    | .CONDUCT_COUNSELING =>
        if truthyAnd (rStudentId resource) (fun sid => teachesStudent user sid) then
          ⟨true, none⟩
        else ⟨false, some reasonNotOwnStudent⟩
    | .VIEW_STUDENTS | .VIEW_GRADES | .VIEW_ATTENDANCE =>
        if truthyAnd (rClassId resource) (fun c => teachesClass user c) then
          ⟨true, none⟩
        else ⟨true, none⟩ -- 일반적인 조회는 허용 (general viewing is allowed)
    | _ => ⟨true, none⟩
  else
    match permission with
    | .MANAGE_CLASS | .MANAGE_STUDENTS | .EDIT_STUDENT_INFO =>
        if truthyAnd (rClassId resource) (fun c => user.classId == some c) then
          ⟨true, none⟩
        else if !(truthy (rClassId resource)) then
          ⟨true, none⟩ -- 클래스 ID가 없으면 일반적으로 허용
        else ⟨false, some reasonNotOwnHomeroom⟩
    | _ => ⟨true, none⟩

/-- `RBACService.checkResourceAccess` as shipped (stub lookups). -/
def svcCheckResourceAccess : User → Permission → Option Resource → AuthorizationResult :=
  svcCheckResourceAccessWith stubTrue stubTrue

/-- `RBACService.checkPermission`, parameterised over the lookups. -/
def svcCheckPermissionWith (teachesStudent teachesClass : User → String → Bool)
    (user : User) (permission : Permission) (resource : Option Resource) :
    AuthorizationResult :=
  if !user.isActive then ⟨false, some reasonInactive⟩
  else if !((svcGetRolePermissions user.role).contains permission) then
    ⟨false, some reasonNoRolePermission⟩
  else svcCheckResourceAccessWith teachesStudent teachesClass user permission resource

/-- `RBACService.checkPermission` as shipped (stub lookups). -/
def svcCheckPermission : User → Permission → Option Resource → AuthorizationResult :=
  svcCheckPermissionWith stubTrue stubTrue

/-- `TeacherService.initializeSampleData`: the two sample users inserted
into `this.users`. `createdAt: new Date()` is abstracted to `0`. -/
def teacherServiceUsers : List User :=
  [ ⟨"teacher1", "김담임", "kim@school.edu", TeacherRole.HOMEROOM_TEACHER,
      some "class-3-1", none, none, 0, true⟩,
    ⟨"teacher2", "이일반", "lee@school.edu", TeacherRole.GENERAL_TEACHER,
      none, some ["math", "science"], none, 0, true⟩ ]

/-- `TeacherService.getUserById`: `this.users.get(id) || null`. The map
is keyed by `user.id`, so lookup is a search for the matching id. -/
def getUserById (id : String) : Option User :=
  teacherServiceUsers.find? (fun u => u.id == id)

/-- `TeacherService.checkPermission`: resolves the user id and, when no
user record matches, returns a denial with the user-not-found reason
instead of failing. -/
def teacherServiceCheckPermission (userId : String) (permission : Permission)
    (resource : Option Resource) : AuthorizationResult :=
  match getUserById userId with
  | none => ⟨false, some reasonUserNotFound⟩
  | some user => rbcCheckPermission user permission resource

/-- `RBACService.canAccessScreen`: the local `screenPermissions` record
mapping screen names to required permissions. -/
def screenPermissionsTable : List (String × List Permission) :=
  [ ("Students", [.VIEW_STUDENTS]),
    ("StudentDetail", [.VIEW_STUDENTS]),
    ("AddStudent", [.MANAGE_STUDENTS]),
    ("EditStudent", [.EDIT_STUDENT_INFO]),
    ("Grades", [.VIEW_GRADES]),
    ("AddGrade", [.MANAGE_GRADES]),
    ("EditGrade", [.MANAGE_GRADES]),
    ("Attendance", [.VIEW_ATTENDANCE]),
    ("TakeAttendance", [.MANAGE_ATTENDANCE]) ]

/-- `RBACService.canAccessScreen`: unmapped screens short-circuit to
`true` before any permission check; mapped screens require some listed
permission to be allowed by `checkPermission` with no resource. -/
def canAccessScreen (user : User) (screenName : String) : Bool :=
  match (screenPermissionsTable.find? (fun e => e.1 == screenName)).map
      (fun e => e.2) with
  | none => true
  | some requiredPermissions =>
      requiredPermissions.any (fun p => (svcCheckPermission user p none).allowed)

/-- The mutable state of a `RoleBasedAccessControl` / `RBACService`
instance: the (string-keyed) role-permission table set up at
construction. This is the only instance field either class has. -/
structure RBACState where
  rolePermissions : List (String × List Permission)
  deriving DecidableEq, Repr

/-- The state after `initializeRolePermissions` (standalone script) —
the same table the service initialises inline. -/
def rbcInitState : RBACState := ⟨rbcRolePermissionsTable⟩

/-- `getRolePermissions` reading the table off an explicit state. -/
def getRolePermissionsS (st : RBACState) (role : TeacherRole) : List Permission :=
  (((st.rolePermissions.find? (fun e => e.1 == role.value)).map
      (fun e => e.2)).getD [])

/-- `RoleBasedAccessControl.checkPermission` with the instance state
threaded explicitly: the method body contains no assignment, so every
branch returns the state it received. -/
def rbcCheckPermissionS (st : RBACState) (user : User) (permission : Permission)
    (resource : Option Resource) : AuthorizationResult × RBACState :=
  if !user.isActive then (⟨false, some reasonInactive⟩, st)
  else if !((getRolePermissionsS st user.role).contains permission) then
    (⟨false, some reasonNoRolePermission⟩, st)
  else (rbcCheckResourceAccess user permission resource, st)

/-- `RBACService.checkPermission` with the instance state threaded
explicitly. -/
def svcCheckPermissionS (st : RBACState) (user : User) (permission : Permission)
    (resource : Option Resource) : AuthorizationResult × RBACState :=
  if !user.isActive then (⟨false, some reasonInactive⟩, st)
  else if !((getRolePermissionsS st user.role).contains permission) then
    (⟨false, some reasonNoRolePermission⟩, st)
  else (svcCheckResourceAccess user permission resource, st)

/-- A sample active homeroom teacher (mirrors `teacher1` in
`initializeSampleData`). -/
def sampleHomeroom : User :=
  ⟨"hr-1", "Kim", "kim@school.edu", TeacherRole.HOMEROOM_TEACHER,
    some "class-3-1", none, none, 0, true⟩

/-- A sample active general teacher (mirrors `teacher2`). -/
def sampleGeneral : User :=
  ⟨"gt-1", "Lee", "lee@school.edu", TeacherRole.GENERAL_TEACHER,
    none, some ["math", "science"], none, 0, true⟩

/-- A sample deactivated user. -/
def sampleInactive : User :=
  ⟨"in-1", "Park", "park@school.edu", TeacherRole.HOMEROOM_TEACHER,
    some "class-3-1", none, none, 0, false⟩

/-- The nine permissions absent from the general-teacher baseline table. -/
def generalDeniedPermissions : List Permission :=
  [ .MANAGE_CLASS, .MANAGE_STUDENTS, .EDIT_STUDENT_INFO,
    .EXPORT_GRADES, .MANAGE_ATTENDANCE, .VIEW_PARENT_INFO,
    .CONTACT_PARENTS, .VIEW_CLASS_REPORTS, .VIEW_COUNSELING_RECORDS ]

/-- The two files declare the same role-permission table. -/
theorem svcGetRolePermissions_eq (role : TeacherRole) :
    svcGetRolePermissions role = rbcGetRolePermissions role := by
  cases role <;> rfl

/-- Claim C1: an inactive subject is denied with the inactive-subject
reason for every permission and every resource context, regardless of
role, in both implementations; the activation gate fires before any
other rule (the result never carries any other reason). -/
theorem C1_inactive_denies_everything (u : User) (p : Permission)
    (r : Option Resource) (h : u.isActive = false) :
    rbcCheckPermission u p r = ⟨false, some reasonInactive⟩ ∧
    svcCheckPermission u p r = ⟨false, some reasonInactive⟩ := by
  unfold rbcCheckPermission svcCheckPermission rbcCheckPermissionWith
    svcCheckPermissionWith
  simp [h]

/-- Witness for C1 at a concrete deactivated homeroom teacher. -/
theorem C1_inactive_denies_everything_witness :
    sampleInactive.isActive = false ∧
    rbcCheckPermission sampleInactive .VIEW_STUDENTS none
      = ⟨false, some reasonInactive⟩ ∧
    svcCheckPermission sampleInactive .VIEW_STUDENTS none
      = ⟨false, some reasonInactive⟩ :=
  ⟨rfl,
    (C1_inactive_denies_everything sampleInactive .VIEW_STUDENTS none rfl).1,
    (C1_inactive_denies_everything sampleInactive .VIEW_STUDENTS none rfl).2⟩

/-- Claim C2: for an active subject, a permission missing from the
subject's role baseline table is denied with the
permission-not-granted-to-role reason for every resource context, in
both implementations; in particular an active general teacher is denied
each of the nine permissions outside the general baseline list. -/
theorem C2_role_baseline_gate :
    (∀ (u : User) (p : Permission) (r : Option Resource),
        u.isActive = true →
        (rbcGetRolePermissions u.role).contains p = false →
        rbcCheckPermission u p r = ⟨false, some reasonNoRolePermission⟩ ∧
        svcCheckPermission u p r = ⟨false, some reasonNoRolePermission⟩) ∧
    (∀ (u : User) (r : Option Resource) (p : Permission),
        u.isActive = true → u.role = TeacherRole.GENERAL_TEACHER →
        p ∈ generalDeniedPermissions →
        rbcCheckPermission u p r = ⟨false, some reasonNoRolePermission⟩ ∧
        svcCheckPermission u p r = ⟨false, some reasonNoRolePermission⟩) := by
  have main : ∀ (u : User) (p : Permission) (r : Option Resource),
      u.isActive = true →
      (rbcGetRolePermissions u.role).contains p = false →
      rbcCheckPermission u p r = ⟨false, some reasonNoRolePermission⟩ ∧
      svcCheckPermission u p r = ⟨false, some reasonNoRolePermission⟩ := by
    intro u p r hA hC
    unfold rbcCheckPermission svcCheckPermission rbcCheckPermissionWith
      svcCheckPermissionWith
    rw [svcGetRolePermissions_eq, hA, hC]
    simp
  refine ⟨main, ?_⟩
  intro u r p hA hR hM
  refine main u p r hA ?_
  rw [hR]
  fin_cases hM <;> rfl

/-- Witness for C2: an active general teacher is denied
`MANAGE_CLASS` by the role gate in both implementations. -/
theorem C2_role_baseline_gate_witness :
    rbcCheckPermission sampleGeneral .MANAGE_CLASS none
      = ⟨false, some reasonNoRolePermission⟩ ∧
    svcCheckPermission sampleGeneral .MANAGE_CLASS none
      = ⟨false, some reasonNoRolePermission⟩ :=
  C2_role_baseline_gate.2 sampleGeneral none .MANAGE_CLASS rfl rfl
    (by decide)

/-- A truthiness-guarded check succeeds exactly on a present, non-empty
field that passes the check. -/
theorem truthyAnd_eq_true_iff (o : Option String) (ch : String → Bool) :
    truthyAnd o ch = true ↔ ∃ s, o = some s ∧ s ≠ "" ∧ ch s = true := by
  cases o with
  | none => simp [truthyAnd]
  | some s => simp [truthyAnd, and_comm]

/-- A truthiness-guarded check fails whenever the field itself is falsy. -/
theorem truthyAnd_of_truthy_false (o : Option String) (ch : String → Bool)
    (h : truthy o = false) : truthyAnd o ch = false := by
  cases o with
  | none => rfl
  | some s =>
    have hs : (s == "") = true := by
      simpa [truthy] using h
    simp [truthyAnd, hs]

/-- Guarding with a constant-true check is plain truthiness (the shape
the stub lookups produce). -/
theorem truthyAnd_const_true (o : Option String) :
    truthyAnd o (fun _ => true) = truthy o := by
  cases o <;> simp [truthyAnd, truthy]

/-- When the subject is active and the role table grants the permission,
the standalone `checkPermission` is its resource check. -/
theorem rbcCheckPermissionWith_granted (tS tC : User → String → Bool)
    (u : User) (p : Permission) (r : Option Resource)
    (hA : u.isActive = true)
    (hP : (rbcGetRolePermissions u.role).contains p = true) :
    rbcCheckPermissionWith tS tC u p r
      = rbcCheckResourceAccessWith tS tC u p r := by
  unfold rbcCheckPermissionWith
  rw [hA, hP]
  rfl

/-- When the subject is active and the role table grants the permission,
the service `checkPermission` is its resource check. -/
theorem svcCheckPermissionWith_granted (tS tC : User → String → Bool)
    (u : User) (p : Permission) (r : Option Resource)
    (hA : u.isActive = true)
    (hP : (rbcGetRolePermissions u.role).contains p = true) :
    svcCheckPermissionWith tS tC u p r
      = svcCheckResourceAccessWith tS tC u p r := by
  unfold svcCheckPermissionWith
  rw [svcGetRolePermissions_eq, hA, hP]
  rfl

/-- The standalone resource check on a homeroom teacher's class-manage
permissions. -/
theorem rbc_resource_homeroom_manage (tS tC : User → String → Bool)
    (u : User) (p : Permission) (r : Option Resource)
    (hR : u.role = TeacherRole.HOMEROOM_TEACHER)
    (hM : p ∈ ([.MANAGE_CLASS, .MANAGE_STUDENTS, .EDIT_STUDENT_INFO] :
      List Permission)) :
    rbcCheckResourceAccessWith tS tC u p r
      = if truthyAnd (rClassId r) (fun c => u.classId == some c) then
          ⟨true, none⟩
        else ⟨false, some reasonNotOwnHomeroom⟩ := by
  unfold rbcCheckResourceAccessWith
  rw [hR]
  fin_cases hM <;> rfl

/-- The service resource check on a homeroom teacher's class-manage
permissions, with its extra allow branch for a falsy classId. -/
theorem svc_resource_homeroom_manage (tS tC : User → String → Bool)
    (u : User) (p : Permission) (r : Option Resource)
    (hR : u.role = TeacherRole.HOMEROOM_TEACHER)
    (hM : p ∈ ([.MANAGE_CLASS, .MANAGE_STUDENTS, .EDIT_STUDENT_INFO] :
      List Permission)) :
    svcCheckResourceAccessWith tS tC u p r
      = if truthyAnd (rClassId r) (fun c => u.classId == some c) then
          ⟨true, none⟩
        else if !(truthy (rClassId r)) then ⟨true, none⟩
        else ⟨false, some reasonNotOwnHomeroom⟩ := by
  unfold svcCheckResourceAccessWith
  rw [hR]
  fin_cases hM <;> rfl

/-- The standalone resource check on a general teacher's view
permissions, for an arbitrary injected class lookup. -/
theorem rbc_resource_general_view (tS tC : User → String → Bool)
    (u : User) (p : Permission) (r : Option Resource)
    (hR : u.role = TeacherRole.GENERAL_TEACHER)
    (hM : p ∈ ([.VIEW_STUDENTS, .VIEW_GRADES, .VIEW_ATTENDANCE] :
      List Permission)) :
    rbcCheckResourceAccessWith tS tC u p r
      = if truthyAnd (rClassId r) (fun c => tC u c) then ⟨true, none⟩
        else ⟨false, some reasonNotOwnClassView⟩ := by
  unfold rbcCheckResourceAccessWith
  rw [hR]
  fin_cases hM <;> rfl

/-- The service resource check on a general teacher's view permissions
allows unconditionally (both arms of its guard return allow). -/
theorem svc_resource_general_view (tS tC : User → String → Bool)
    (u : User) (p : Permission) (r : Option Resource)
    (hR : u.role = TeacherRole.GENERAL_TEACHER)
    (hM : p ∈ ([.VIEW_STUDENTS, .VIEW_GRADES, .VIEW_ATTENDANCE] :
      List Permission)) :
    svcCheckResourceAccessWith tS tC u p r = ⟨true, none⟩ := by
  unfold svcCheckResourceAccessWith
  rw [hR]
  fin_cases hM <;> simp

/-- Both resource checks on a general teacher's `MANAGE_GRADES`. -/
theorem resource_general_grades (tS tC : User → String → Bool)
    (u : User) (r : Option Resource)
    (hR : u.role = TeacherRole.GENERAL_TEACHER) :
    rbcCheckResourceAccessWith tS tC u .MANAGE_GRADES r
      = (if truthyAnd (rSubjectId r) (fun s => optIncludes u.subjectIds s) then
          ⟨true, none⟩
        else ⟨false, some reasonNotOwnSubject⟩) ∧
    svcCheckResourceAccessWith tS tC u .MANAGE_GRADES r
      = (if truthyAnd (rSubjectId r) (fun s => optIncludes u.subjectIds s) then
          ⟨true, none⟩
        else ⟨false, some reasonNotOwnSubject⟩) := by
  unfold rbcCheckResourceAccessWith svcCheckResourceAccessWith
  rw [hR]
  exact ⟨rfl, rfl⟩

/-- Both resource checks on a general teacher's `CONDUCT_COUNSELING`,
for an arbitrary injected student lookup. -/
theorem resource_general_counseling (tS tC : User → String → Bool)
    (u : User) (r : Option Resource)
    (hR : u.role = TeacherRole.GENERAL_TEACHER) :
    rbcCheckResourceAccessWith tS tC u .CONDUCT_COUNSELING r
      = (if truthyAnd (rStudentId r) (fun sid => tS u sid) then ⟨true, none⟩
        else ⟨false, some reasonNotOwnStudent⟩) ∧
    svcCheckResourceAccessWith tS tC u .CONDUCT_COUNSELING r
      = (if truthyAnd (rStudentId r) (fun sid => tS u sid) then ⟨true, none⟩
        else ⟨false, some reasonNotOwnStudent⟩) := by
  unfold rbcCheckResourceAccessWith svcCheckResourceAccessWith
  rw [hR]
  exact ⟨rfl, rfl⟩

/-- Claim C3 fails as stated: with no resource context, the standalone
implementation denies an active homeroom teacher `MANAGE_CLASS` with the
not-own-class reason rather than allowing. -/
theorem C3_counterexample :
    rbcCheckPermission sampleHomeroom .MANAGE_CLASS none
      = ⟨false, some reasonNotOwnHomeroom⟩ := rfl

/-- Claim C3 (amended): for an active homeroom teacher requesting
`MANAGE_CLASS`, `MANAGE_STUDENTS` or `EDIT_STUDENT_INFO`, a matching
resource classId allows and a mismatching one denies with the
not-own-class reason in both implementations; but when the resource
classId is falsy (no resource, no field, or empty string) the service
implementation allows while the standalone implementation denies with
the not-own-class reason. -/
theorem C3_homeroom_class_scoping (u : User) (p : Permission)
    (r : Option Resource) (hA : u.isActive = true)
    (hR : u.role = TeacherRole.HOMEROOM_TEACHER)
    (hM : p ∈ ([.MANAGE_CLASS, .MANAGE_STUDENTS, .EDIT_STUDENT_INFO] :
      List Permission)) :
    (∀ c, rClassId r = some c → c ≠ "" → u.classId = some c →
        rbcCheckPermission u p r = ⟨true, none⟩ ∧
        svcCheckPermission u p r = ⟨true, none⟩) ∧
    (∀ c, rClassId r = some c → c ≠ "" → u.classId ≠ some c →
        rbcCheckPermission u p r = ⟨false, some reasonNotOwnHomeroom⟩ ∧
        svcCheckPermission u p r = ⟨false, some reasonNotOwnHomeroom⟩) ∧
    (truthy (rClassId r) = false →
        rbcCheckPermission u p r = ⟨false, some reasonNotOwnHomeroom⟩ ∧
        svcCheckPermission u p r = ⟨true, none⟩) := by
  have hP : (rbcGetRolePermissions u.role).contains p = true := by
    rw [hR]; fin_cases hM <;> rfl
  have h1 : rbcCheckPermission u p r
      = if truthyAnd (rClassId r) (fun c => u.classId == some c) then
          ⟨true, none⟩
        else ⟨false, some reasonNotOwnHomeroom⟩ := by
    unfold rbcCheckPermission
    rw [rbcCheckPermissionWith_granted _ _ _ _ _ hA hP,
      rbc_resource_homeroom_manage _ _ _ _ _ hR hM]
  have h2 : svcCheckPermission u p r
      = if truthyAnd (rClassId r) (fun c => u.classId == some c) then
          ⟨true, none⟩
        else if !(truthy (rClassId r)) then ⟨true, none⟩
        else ⟨false, some reasonNotOwnHomeroom⟩ := by
    unfold svcCheckPermission
    rw [svcCheckPermissionWith_granted _ _ _ _ _ hA hP,
      svc_resource_homeroom_manage _ _ _ _ _ hR hM]
  rw [h1, h2]
  refine ⟨?_, ?_, ?_⟩
  · intro c hc hcne hcls
    have hg : truthyAnd (rClassId r) (fun c => u.classId == some c) = true := by
      rw [hc]
      simp [truthyAnd, hcne, hcls]
    simp [hg]
  · intro c hc hcne hcls
    have hg : truthyAnd (rClassId r) (fun c => u.classId == some c) = false := by
      rw [hc]
      simp [truthyAnd, hcne, hcls]
    have ht : truthy (rClassId r) = true := by
      rw [hc]
      simp [truthy, hcne]
    simp [hg, ht]
  · intro hT
    have hg := truthyAnd_of_truthy_false (rClassId r)
      (fun c => u.classId == some c) hT
    simp [hg, hT]

/-- Witness for the amended C3 at concrete inputs: own class allowed,
foreter class denied, and the divergent no-resource case. -/
theorem C3_homeroom_class_scoping_witness :
    (rbcCheckPermission sampleHomeroom .MANAGE_STUDENTS
        (some ⟨some "class-3-1", none, none⟩) = ⟨true, none⟩ ∧
     svcCheckPermission sampleHomeroom .MANAGE_STUDENTS
        (some ⟨some "class-3-1", none, none⟩) = ⟨true, none⟩) ∧
    (rbcCheckPermission sampleHomeroom .MANAGE_STUDENTS
        (some ⟨some "class-9-9", none, none⟩)
        = ⟨false, some reasonNotOwnHomeroom⟩ ∧
     svcCheckPermission sampleHomeroom .MANAGE_STUDENTS
        (some ⟨some "class-9-9", none, none⟩)
        = ⟨false, some reasonNotOwnHomeroom⟩) ∧
    (rbcCheckPermission sampleHomeroom .MANAGE_STUDENTS none
        = ⟨false, some reasonNotOwnHomeroom⟩ ∧
     svcCheckPermission sampleHomeroom .MANAGE_STUDENTS none
        = ⟨true, none⟩) :=
  ⟨(C3_homeroom_class_scoping sampleHomeroom .MANAGE_STUDENTS
      (some ⟨some "class-3-1", none, none⟩) rfl rfl (by decide)).1
      "class-3-1" rfl (by decide) rfl,
   (C3_homeroom_class_scoping sampleHomeroom .MANAGE_STUDENTS
      (some ⟨some "class-9-9", none, none⟩) rfl rfl (by decide)).2.1
      "class-9-9" rfl (by decide) (by decide),
   (C3_homeroom_class_scoping sampleHomeroom .MANAGE_STUDENTS
      none rfl rfl (by decide)).2.2 rfl⟩

/-- Claim C4: an active general teacher requesting `MANAGE_GRADES` is
allowed exactly when the resource carries a (truthy) subjectId that is a
member of the teacher's `subjectIds`; in every other case — subjectId
absent, not taught, or no resource at all — the decision is a denial
with the not-own-subject reason. Both implementations. -/
theorem C4_general_manage_grades (u : User) (r : Option Resource)
    (hA : u.isActive = true) (hR : u.role = TeacherRole.GENERAL_TEACHER) :
    ((rbcCheckPermission u .MANAGE_GRADES r).allowed = true ↔
        ∃ s, rSubjectId r = some s ∧ s ≠ "" ∧ optIncludes u.subjectIds s = true) ∧
    ((rbcCheckPermission u .MANAGE_GRADES r).allowed = false →
        rbcCheckPermission u .MANAGE_GRADES r
          = ⟨false, some reasonNotOwnSubject⟩) ∧
    ((svcCheckPermission u .MANAGE_GRADES r).allowed = true ↔
        ∃ s, rSubjectId r = some s ∧ s ≠ "" ∧ optIncludes u.subjectIds s = true) ∧
    ((svcCheckPermission u .MANAGE_GRADES r).allowed = false →
        svcCheckPermission u .MANAGE_GRADES r
          = ⟨false, some reasonNotOwnSubject⟩) := by
  have hP : (rbcGetRolePermissions u.role).contains Permission.MANAGE_GRADES
      = true := by rw [hR]; rfl
  have hrbc : rbcCheckPermission u .MANAGE_GRADES r =
      if truthyAnd (rSubjectId r) (fun s => optIncludes u.subjectIds s) then
        ⟨true, none⟩
      else ⟨false, some reasonNotOwnSubject⟩ := by
    unfold rbcCheckPermission
    rw [rbcCheckPermissionWith_granted _ _ _ _ _ hA hP,
      (resource_general_grades _ _ _ _ hR).1]
  have hsvc : svcCheckPermission u .MANAGE_GRADES r =
      if truthyAnd (rSubjectId r) (fun s => optIncludes u.subjectIds s) then
        ⟨true, none⟩
      else ⟨false, some reasonNotOwnSubject⟩ := by
    unfold svcCheckPermission
    rw [svcCheckPermissionWith_granted _ _ _ _ _ hA hP,
      (resource_general_grades _ _ _ _ hR).2]
  rw [hrbc, hsvc]
  cases hT : truthyAnd (rSubjectId r) (fun s => optIncludes u.subjectIds s) with
  | true =>
    have := (truthyAnd_eq_true_iff _ _).mp hT
    simpa using this
  | false =>
    have : ¬ ∃ s, rSubjectId r = some s ∧ s ≠ "" ∧ optIncludes u.subjectIds s = true := by
      rw [← truthyAnd_eq_true_iff]
      simp [hT]
    simpa using this

/-- Witness for C4 at a concrete general teacher: taught subject
allowed, untaught subject denied, absent resource denied. -/
theorem C4_general_manage_grades_witness :
    ((rbcCheckPermission sampleGeneral .MANAGE_GRADES
        (some ⟨none, some "math", none⟩)).allowed = true) ∧
    (rbcCheckPermission sampleGeneral .MANAGE_GRADES
        (some ⟨none, some "art", none⟩)
        = ⟨false, some reasonNotOwnSubject⟩) ∧
    (svcCheckPermission sampleGeneral .MANAGE_GRADES none
        = ⟨false, some reasonNotOwnSubject⟩) :=
  ⟨(C4_general_manage_grades sampleGeneral (some ⟨none, some "math", none⟩)
      rfl rfl).1.mpr ⟨"math", rfl, by decide, by decide⟩,
   (C4_general_manage_grades sampleGeneral (some ⟨none, some "art", none⟩)
      rfl rfl).2.1 (by decide),
   (C4_general_manage_grades sampleGeneral none rfl rfl).2.2.2 (by decide)⟩

/-- Claim C5 fails as stated for the service implementation: even when
the injected teaching-relationship lookup rejects the class, an active
general teacher is allowed `VIEW_STUDENTS` on that class — the service's
view branch allows in both arms, it never denies with the not-own-class
reason. (In the shipped files the lookup is the constant-true stub, so a
failing lookup is not even reachable.) -/
theorem C5_counterexample :
    svcCheckPermissionWith (fun _ _ => false) (fun _ _ => false)
      sampleGeneral .VIEW_STUDENTS (some ⟨some "class-9-9", none, none⟩)
      = ⟨true, none⟩ := rfl

/-- Claim C5 (amended): for an active general teacher requesting
`VIEW_STUDENTS`, `VIEW_GRADES` or `VIEW_ATTENDANCE` with any injected
teaching-relationship lookup, the standalone implementation allows when
the resource carries a truthy classId confirmed by the lookup and denies
with the not-own-class reason when the lookup rejects it (or when the
classId is falsy); the service implementation allows unconditionally,
regardless of the lookup. -/
theorem C5_general_view_scoping (tS tC : User → String → Bool) (u : User)
    (p : Permission) (r : Option Resource) (hA : u.isActive = true)
    (hR : u.role = TeacherRole.GENERAL_TEACHER)
    (hM : p ∈ ([.VIEW_STUDENTS, .VIEW_GRADES, .VIEW_ATTENDANCE] :
      List Permission)) :
    (∀ c, rClassId r = some c → c ≠ "" → tC u c = true →
        rbcCheckPermissionWith tS tC u p r = ⟨true, none⟩) ∧
    (∀ c, rClassId r = some c → c ≠ "" → tC u c = false →
        rbcCheckPermissionWith tS tC u p r
          = ⟨false, some reasonNotOwnClassView⟩) ∧
    (truthy (rClassId r) = false →
        rbcCheckPermissionWith tS tC u p r
          = ⟨false, some reasonNotOwnClassView⟩) ∧
    svcCheckPermissionWith tS tC u p r = ⟨true, none⟩ := by
  have hP : (rbcGetRolePermissions u.role).contains p = true := by
    rw [hR]; fin_cases hM <;> rfl
  have h1 : rbcCheckPermissionWith tS tC u p r
      = if truthyAnd (rClassId r) (fun c => tC u c) then ⟨true, none⟩
        else ⟨false, some reasonNotOwnClassView⟩ := by
    rw [rbcCheckPermissionWith_granted _ _ _ _ _ hA hP,
      rbc_resource_general_view _ _ _ _ _ hR hM]
  have h2 : svcCheckPermissionWith tS tC u p r = ⟨true, none⟩ := by
    rw [svcCheckPermissionWith_granted _ _ _ _ _ hA hP,
      svc_resource_general_view _ _ _ _ _ hR hM]
  refine ⟨?_, ?_, ?_, h2⟩
  · intro c hc hcne htc
    have hg : truthyAnd (rClassId r) (fun c => tC u c) = true := by
      rw [hc]
      simp [truthyAnd, hcne, htc]
    rw [h1, hg]
    rfl
  · intro c hc hcne htc
    have hg : truthyAnd (rClassId r) (fun c => tC u c) = false := by
      rw [hc]
      simp [truthyAnd, hcne, htc]
    rw [h1, hg]
    rfl
  · intro hT
    rw [h1, truthyAnd_of_truthy_false _ _ hT]
    rfl

/-- Witness for the amended C5 with a concrete lookup that teaches only
`"class-A"`: the standalone implementation allows that class, denies
another, and the service implementation allows both. -/
theorem C5_general_view_scoping_witness :
    rbcCheckPermissionWith stubTrue (fun _ c => c == "class-A")
      sampleGeneral .VIEW_GRADES (some ⟨some "class-A", none, none⟩)
      = ⟨true, none⟩ ∧
    rbcCheckPermissionWith stubTrue (fun _ c => c == "class-A")
      sampleGeneral .VIEW_GRADES (some ⟨some "class-B", none, none⟩)
      = ⟨false, some reasonNotOwnClassView⟩ ∧
    svcCheckPermissionWith stubTrue (fun _ c => c == "class-A")
      sampleGeneral .VIEW_GRADES (some ⟨some "class-B", none, none⟩)
      = ⟨true, none⟩ :=
  ⟨(C5_general_view_scoping stubTrue (fun _ c => c == "class-A")
      sampleGeneral .VIEW_GRADES (some ⟨some "class-A", none, none⟩)
      rfl rfl (by decide)).1 "class-A" rfl (by decide) (by decide),
   (C5_general_view_scoping stubTrue (fun _ c => c == "class-A")
      sampleGeneral .VIEW_GRADES (some ⟨some "class-B", none, none⟩)
      rfl rfl (by decide)).2.1 "class-B" rfl (by decide) (by decide),
   (C5_general_view_scoping stubTrue (fun _ c => c == "class-A")
      sampleGeneral .VIEW_GRADES (some ⟨some "class-B", none, none⟩)
      rfl rfl (by decide)).2.2.2⟩

/-- Claim C6: for an active general teacher requesting
`CONDUCT_COUNSELING` with any injected teaching-relationship lookup,
both implementations allow exactly when the resource carries a truthy
studentId that the lookup confirms; otherwise (studentId absent, falsy,
or lookup rejecting) both deny with the not-own-student reason. -/
theorem C6_counseling_scoping (tS tC : User → String → Bool) (u : User)
    (r : Option Resource) (hA : u.isActive = true)
    (hR : u.role = TeacherRole.GENERAL_TEACHER) :
    ((rbcCheckPermissionWith tS tC u .CONDUCT_COUNSELING r).allowed = true ↔
        ∃ sid, rStudentId r = some sid ∧ sid ≠ "" ∧ tS u sid = true) ∧
    ((rbcCheckPermissionWith tS tC u .CONDUCT_COUNSELING r).allowed = false →
        rbcCheckPermissionWith tS tC u .CONDUCT_COUNSELING r
          = ⟨false, some reasonNotOwnStudent⟩) ∧
    ((svcCheckPermissionWith tS tC u .CONDUCT_COUNSELING r).allowed = true ↔
        ∃ sid, rStudentId r = some sid ∧ sid ≠ "" ∧ tS u sid = true) ∧
    ((svcCheckPermissionWith tS tC u .CONDUCT_COUNSELING r).allowed = false →
        svcCheckPermissionWith tS tC u .CONDUCT_COUNSELING r
          = ⟨false, some reasonNotOwnStudent⟩) := by
  have hP : (rbcGetRolePermissions u.role).contains
      Permission.CONDUCT_COUNSELING = true := by rw [hR]; rfl
  have h1 : rbcCheckPermissionWith tS tC u .CONDUCT_COUNSELING r
      = if truthyAnd (rStudentId r) (fun sid => tS u sid) then ⟨true, none⟩
        else ⟨false, some reasonNotOwnStudent⟩ := by
    rw [rbcCheckPermissionWith_granted _ _ _ _ _ hA hP,
      (resource_general_counseling _ _ _ _ hR).1]
  have h2 : svcCheckPermissionWith tS tC u .CONDUCT_COUNSELING r
      = if truthyAnd (rStudentId r) (fun sid => tS u sid) then ⟨true, none⟩
        else ⟨false, some reasonNotOwnStudent⟩ := by
    rw [svcCheckPermissionWith_granted _ _ _ _ _ hA hP,
      (resource_general_counseling _ _ _ _ hR).2]
  rw [h1, h2]
  cases hT : truthyAnd (rStudentId r) (fun sid => tS u sid) with
  | true =>
    have := (truthyAnd_eq_true_iff _ _).mp hT
    simpa using this
  | false =>
    have : ¬ ∃ sid, rStudentId r = some sid ∧ sid ≠ "" ∧ tS u sid = true := by
      rw [← truthyAnd_eq_true_iff]
      simp [hT]
    simpa using this

/-- Witness for C6 with a lookup that teaches only student `"st-1"`:
taught student allowed, other student denied, absent studentId denied. -/
theorem C6_counseling_scoping_witness :
    (rbcCheckPermissionWith (fun _ sid => sid == "st-1") stubTrue
        sampleGeneral .CONDUCT_COUNSELING
        (some ⟨none, none, some "st-1"⟩)).allowed = true ∧
    svcCheckPermissionWith (fun _ sid => sid == "st-1") stubTrue
        sampleGeneral .CONDUCT_COUNSELING (some ⟨none, none, some "st-2"⟩)
        = ⟨false, some reasonNotOwnStudent⟩ ∧
    rbcCheckPermissionWith (fun _ sid => sid == "st-1") stubTrue
        sampleGeneral .CONDUCT_COUNSELING none
        = ⟨false, some reasonNotOwnStudent⟩ :=
  ⟨(C6_counseling_scoping (fun _ sid => sid == "st-1") stubTrue
      sampleGeneral (some ⟨none, none, some "st-1"⟩) rfl rfl).1.mpr
      ⟨"st-1", rfl, by decide, by decide⟩,
   (C6_counseling_scoping (fun _ sid => sid == "st-1") stubTrue
      sampleGeneral (some ⟨none, none, some "st-2"⟩) rfl rfl).2.2.2
      (by decide),
   (C6_counseling_scoping (fun _ sid => sid == "st-1") stubTrue
      sampleGeneral none rfl rfl).2.1 (by decide)⟩

/-- The inputs on which the two shipped implementations disagree: an
active subject, a falsy resource classId, and a (role, permission) pair
in one of the two class-scoped groups. -/
def divergentInput (u : User) (p : Permission) (r : Option Resource) : Bool :=
  u.isActive && !(truthy (rClassId r)) &&
  (match u.role, p with
   | .HOMEROOM_TEACHER, .MANAGE_CLASS
   | .HOMEROOM_TEACHER, .MANAGE_STUDENTS
   | .HOMEROOM_TEACHER, .EDIT_STUDENT_INFO
   | .GENERAL_TEACHER, .VIEW_STUDENTS
   | .GENERAL_TEACHER, .VIEW_GRADES
   | .GENERAL_TEACHER, .VIEW_ATTENDANCE => true
   | _, _ => false)

/-- Claim C7 fails as stated: the two implementations are not the same
function. An active homeroom teacher requesting `MANAGE_CLASS` with a
resource context that carries no classId is denied by the standalone
script but allowed by the service. -/
theorem C7_counterexample :
    (rbcCheckPermission sampleHomeroom .MANAGE_CLASS
        (some ⟨none, none, none⟩)).allowed = false ∧
    (svcCheckPermission sampleHomeroom .MANAGE_CLASS
        (some ⟨none, none, none⟩)).allowed = true := ⟨rfl, rfl⟩

/-- Claim C7 (amended): the two implementations return the same
allowed/denied decision on every input except exactly the divergent
ones — an active subject with a falsy resource classId requesting a
homeroom class-manage permission or a general-teacher view permission —
where the standalone script denies and the service allows. -/
theorem C7_implementations_agree_except (u : User) (p : Permission)
    (r : Option Resource) :
    (divergentInput u p r = false →
        (rbcCheckPermission u p r).allowed
          = (svcCheckPermission u p r).allowed) ∧
    (divergentInput u p r = true →
        (rbcCheckPermission u p r).allowed = false ∧
        (svcCheckPermission u p r).allowed = true) := by
  obtain ⟨uid, unm, uem, urole, ucls, usubs, upi, ucat, uact⟩ := u
  cases uact with
  | false =>
    exact ⟨fun _ => rfl, fun hdiv => absurd hdiv (by simp [divergentInput])⟩
  | true =>
    cases urole <;> cases p <;>
      first
      | exact ⟨fun _ => rfl, fun hdiv => absurd hdiv (by simp [divergentInput])⟩
      | (rcases r with _ | ⟨cid, sid, stid⟩
         · exact ⟨fun hdiv => absurd hdiv
               (by simp [divergentInput, rClassId, truthy]),
             fun _ => ⟨rfl, rfl⟩⟩
         · cases cid with
           | none =>
             exact ⟨fun hdiv => absurd hdiv
                 (by simp [divergentInput, rClassId, truthy]),
               fun _ => ⟨rfl, rfl⟩⟩
           | some c =>
             by_cases hc : c = ""
             · subst hc
               exact ⟨fun hdiv => absurd hdiv
                   (by simp [divergentInput, rClassId, truthy]),
                 fun _ => ⟨rfl, rfl⟩⟩
             · refine ⟨fun _ => ?_,
                 fun hdiv => absurd hdiv
                   (by simp [divergentInput, rClassId, truthy, hc])⟩
               have hcb : (c == "") = false := by simp [hc]
               by_cases hg : ucls = some c
               · simp [rbcCheckPermission, svcCheckPermission,
                   rbcCheckPermissionWith, svcCheckPermissionWith,
                   rbcCheckResourceAccessWith, svcCheckResourceAccessWith,
                   rbcGetRolePermissions, svcGetRolePermissions,
                   rbcRolePermissionsTable, svcRolePermissionsTable,
                   TeacherRole.value, homeroomPermissionList,
                   generalPermissionList,
                   rClassId, truthyAnd, truthy, stubTrue, hcb, hg]
               · simp [rbcCheckPermission, svcCheckPermission,
                   rbcCheckPermissionWith, svcCheckPermissionWith,
                   rbcCheckResourceAccessWith, svcCheckResourceAccessWith,
                   rbcGetRolePermissions, svcGetRolePermissions,
                   rbcRolePermissionsTable, svcRolePermissionsTable,
                   TeacherRole.value, homeroomPermissionList,
                   generalPermissionList,
                   rClassId, truthyAnd, truthy, stubTrue, hcb, hg])

/-- Witness for the amended C7: the implementations agree on a
non-divergent input and split exactly as described on a divergent one. -/
theorem C7_implementations_agree_except_witness :
    ((rbcCheckPermission sampleGeneral .MANAGE_GRADES
        (some ⟨none, some "math", none⟩)).allowed
      = (svcCheckPermission sampleGeneral .MANAGE_GRADES
        (some ⟨none, some "math", none⟩)).allowed) ∧
    ((rbcCheckPermission sampleHomeroom .EDIT_STUDENT_INFO none).allowed
        = false ∧
     (svcCheckPermission sampleHomeroom .EDIT_STUDENT_INFO none).allowed
        = true) :=
  ⟨(C7_implementations_agree_except sampleGeneral .MANAGE_GRADES
      (some ⟨none, some "math", none⟩)).1 (by decide),
   (C7_implementations_agree_except sampleHomeroom .EDIT_STUDENT_INFO
      none).2 (by decide)⟩

/-- Claim C8: with the instance state threaded explicitly, both
`checkPermission` methods are deterministic and side-effect-free: the
state (the role-permission table, the only instance field) comes back
unchanged, and re-running the call on the returned state yields the
identical decision. The subject record is taken by value and never
returned, so it cannot be mutated. -/
theorem C8_checkPermission_pure (st : RBACState) (u : User)
    (p : Permission) (r : Option Resource) :
    (rbcCheckPermissionS st u p r).2 = st ∧
    (svcCheckPermissionS st u p r).2 = st ∧
    (rbcCheckPermissionS ((rbcCheckPermissionS st u p r).2) u p r).1
      = (rbcCheckPermissionS st u p r).1 ∧
    (svcCheckPermissionS ((svcCheckPermissionS st u p r).2) u p r).1
      = (svcCheckPermissionS st u p r).1 := by
  have h1 : ∀ st' : RBACState, (rbcCheckPermissionS st' u p r).2 = st' := by
    intro st'
    unfold rbcCheckPermissionS
    split
    · rfl
    · split <;> rfl
  have h2 : ∀ st' : RBACState, (svcCheckPermissionS st' u p r).2 = st' := by
    intro st'
    unfold svcCheckPermissionS
    split
    · rfl
    · split <;> rfl
  exact ⟨h1 st, h2 st, by rw [h1 st], by rw [h2 st]⟩

/-- Claim C9 fails as stated: an unknown userId is silently converted
into an ordinary `AuthorizationResult` denial by
`TeacherService.checkPermission` — no fail-fast occurs. -/
theorem C9_counterexample :
    teacherServiceCheckPermission "ghost" .VIEW_STUDENTS none
      = ⟨false, some reasonUserNotFound⟩ := rfl

/-- Claim C9 (amended): malformed input is converted into ordinary
results, never a fast failure: a userId with no matching record yields a
denial with the user-not-found reason, and a role key outside the two
enum values makes `getRolePermissions` return the empty list (the
`|| []` fallback) rather than raising. -/
theorem C9_malformed_input_is_denied (uid : String) (p : Permission)
    (r : Option Resource) :
    (getUserById uid = none →
        teacherServiceCheckPermission uid p r
          = ⟨false, some reasonUserNotFound⟩) ∧
    (∀ roleStr : String, roleStr ≠ "homeroom_teacher" →
        roleStr ≠ "general_teacher" →
        rbcGetRolePermissionsStr roleStr = []) := by
  constructor
  · intro h
    unfold teacherServiceCheckPermission
    rw [h]
  · intro roleStr h1 h2
    have hb1 : ("homeroom_teacher" == roleStr) = false := by
      simp [Ne.symm h1]
    have hb2 : ("general_teacher" == roleStr) = false := by
      simp [Ne.symm h2]
    unfold rbcGetRolePermissionsStr rbcRolePermissionsTable
    simp [List.find?, hb1, hb2]

/-- Witness for the amended C9 at the concrete unknown id `"ghost"` and
the concrete unknown role key `"admin"`. -/
theorem C9_malformed_input_is_denied_witness :
    teacherServiceCheckPermission "ghost" .MANAGE_CLASS none
      = ⟨false, some reasonUserNotFound⟩ ∧
    rbcGetRolePermissionsStr "admin" = [] :=
  ⟨(C9_malformed_input_is_denied "ghost" .MANAGE_CLASS none).1 rfl,
   (C9_malformed_input_is_denied "x" .MANAGE_CLASS none).2 "admin"
     (by decide) (by decide)⟩

/-- Claim C10: for every screen name outside the nine-entry
screen-permission table, `canAccessScreen` returns `true` for every
user — including an inactive one — because the unmapped-screen
short-circuit fires before any permission check. -/
theorem C10_unmapped_screen_always_accessible (u : User) (s : String)
    (h : s ∉ screenPermissionsTable.map (fun e => e.1)) :
    canAccessScreen u s = true := by
  have hf : screenPermissionsTable.find? (fun e => e.1 == s) = none := by
    apply List.find?_eq_none.mpr
    intro x hx hbeq
    exact h (List.mem_map.mpr ⟨x, hx, eq_of_beq hbeq⟩)
  unfold canAccessScreen
  rw [hf]
  rfl

/-- Witness for C10: a deactivated user can still "access" the unmapped
`Dashboard` screen. -/
theorem C10_unmapped_screen_always_accessible_witness :
    sampleInactive.isActive = false ∧
    canAccessScreen sampleInactive "Dashboard" = true :=
  ⟨rfl, C10_unmapped_screen_always_accessible sampleInactive "Dashboard"
    (by decide)⟩

end TeacherRBAC
